import Mathlib

/-!
Verification development for the sitaram certificate-verification system.

The repository verifies scanned academic certificates: OCR text is scanned
for candidate registration identifiers, candidates are resolved against a
registry store (SQLite table populated by src/csv_to_database.py), extracted
fields are fuzzily matched against the looked-up record, and a weighted
score drives a three-way decision.  An optional seal-classification verdict
is combined with the text decision in src/main.py.

The core engine (verifier.py with class CertificateVerifier, and
ocr_client.py) is imported throughout the repository but its file is not
present under src/; definitions for it below are modelled from the spec, as
their doc comments state.  src/main.py, src/csv_to_database.py and
src/test_security_fix.py are present and embedded directly.

Python floats are modelled as rationals; Python strings as Lean strings.
-/

namespace Sitaram

/-! ### Character-level facts used by identifier normalization -/

/-- Packing a valid codepoint and reading back its numeric value is the
identity. -/
theorem char_toNat_ofNat {n : Nat} (h : n.isValidChar) :
    (Char.ofNat n).toNat = n := by
  simp [Char.ofNat, h, Char.ofNatAux, Char.toNat, UInt32.toNat]

/-- Numeric value of converting a character to upper case, matching the
definition of Char.toUpper (basic latin letters only). -/
theorem toNat_toUpper (c : Char) :
    (Char.toUpper c).toNat =
      if 97 ≤ c.toNat ∧ c.toNat ≤ 122 then c.toNat - 32 else c.toNat := by
  have hdef : Char.toUpper c =
      if c.toNat ≥ 97 ∧ c.toNat ≤ 122 then Char.ofNat (c.toNat - 32) else c := rfl
  rw [hdef]
  by_cases h : 97 ≤ c.toNat ∧ c.toNat ≤ 122
  · rw [if_pos ⟨h.1, h.2⟩, if_pos h, char_toNat_ofNat (Or.inl (by omega))]
  · rw [if_neg (fun hc => h ⟨hc.1, hc.2⟩), if_neg h]

/-- Characters are determined by their numeric value. -/
theorem char_toNat_inj {c d : Char} (h : c.toNat = d.toNat) : c = d := by
  apply Char.eq_of_val_eq
  exact UInt32.ext h

/-- Whitespace characters, by numeric value. -/
theorem isWhitespace_iff_toNat (c : Char) :
    c.isWhitespace = true ↔
      (c.toNat = 32 ∨ c.toNat = 9 ∨ c.toNat = 13 ∨ c.toNat = 10) := by
  constructor
  · intro h
    simp only [Char.isWhitespace, Bool.or_eq_true, decide_eq_true_eq] at h
    rcases h with ((h | h) | h) | h <;> subst h <;> simp [Char.toNat]
  · intro h
    have : c = ' ' ∨ c = '\t' ∨ c = '\r' ∨ c = '\n' := by
      rcases h with h | h | h | h
      · exact Or.inl (char_toNat_inj h)
      · exact Or.inr (Or.inl (char_toNat_inj h))
      · exact Or.inr (Or.inr (Or.inl (char_toNat_inj h)))
      · exact Or.inr (Or.inr (Or.inr (char_toNat_inj h)))
    rcases this with h | h | h | h <;> subst h <;> rfl

/-- Upper-casing does not change whether a character is whitespace. -/
theorem isWhitespace_toUpper (c : Char) :
    (Char.toUpper c).isWhitespace = c.isWhitespace := by
  by_cases hw : c.isWhitespace = true
  · have hn := (isWhitespace_iff_toNat c).mp hw
    have : (Char.toUpper c).toNat = c.toNat := by
      rw [toNat_toUpper]; rw [if_neg]; omega
    rw [hw]
    exact (isWhitespace_iff_toNat _).mpr (by rw [this]; exact hn)
  · have hn : ¬ (c.toNat = 32 ∨ c.toNat = 9 ∨ c.toNat = 13 ∨ c.toNat = 10) :=
      fun h => hw ((isWhitespace_iff_toNat c).mpr h)
    have hup : ¬ ((Char.toUpper c).toNat = 32 ∨ (Char.toUpper c).toNat = 9 ∨
        (Char.toUpper c).toNat = 13 ∨ (Char.toUpper c).toNat = 10) := by
      rw [toNat_toUpper]
      by_cases h : 97 ≤ c.toNat ∧ c.toNat ≤ 122
      · rw [if_pos h]; omega
      · rw [if_neg h]; exact hn
    have h1 : c.isWhitespace = false := by
      cases hx : c.isWhitespace
      · rfl
      · exact absurd hx hw
    have h2 : (Char.toUpper c).isWhitespace = false := by
      cases hx : (Char.toUpper c).isWhitespace
      · rfl
      · exact absurd ((isWhitespace_iff_toNat _).mp hx) hup
    rw [h1, h2]

/-- Upper-casing is idempotent. -/
theorem toUpper_toUpper (c : Char) :
    Char.toUpper (Char.toUpper c) = Char.toUpper c := by
  apply char_toNat_inj
  rw [toNat_toUpper, toNat_toUpper]
  split_ifs <;> omega

/-! ### Identifier normalization and registry lookup (spec §4.1) -/

/-- Modelled from the spec: verifier.py (the registry-lookup half of class
CertificateVerifier) is absent from src/.  Spec §4.1: identifiers are
compared uppercase, with all internal whitespace removed, before the
equality check. -/
def normalizeId (s : String) : String :=
  ⟨(s.data.map Char.toUpper).filter (fun c => !c.isWhitespace)⟩

/-- A record of the certificates table.  Columns follow the INSERT statement
of src/csv_to_database.py (process_and_insert_data). -/
structure RegistryRecord where
  reg_no : String
  usn : String
  name : String
  father_name : String
  institution : String
  degree : String
  year : Nat
  assigned_date : String
  certificate_type : String
  notes : String
deriving DecidableEq, Repr

/-- Modelled from the spec: verifier.py (CertificateVerifier lookup) is
absent from src/.  Spec §4.1: a candidate identifier matching either the
legacy registration-number column or the roll/serial/USN column, after
normalization, counts as a hit. -/
def matchesRecord (idv : String) (r : RegistryRecord) : Bool :=
  normalizeId idv == normalizeId r.reg_no ||
    normalizeId idv == normalizeId r.usn

/-- Modelled from the spec: verifier.py (CertificateVerifier lookup) is
absent from src/.  Spec §4.1: resolve an identifier to zero or one registry
record; not-found is a result, not an error. -/
def lookup_by_id (store : List RegistryRecord) (idv : String) :
    Option RegistryRecord :=
  store.find? (matchesRecord idv)

theorem normList_map_toUpper (l : List Char) :
    ((l.map Char.toUpper).filter (fun c => !c.isWhitespace)).map Char.toUpper
      = (l.map Char.toUpper).filter (fun c => !c.isWhitespace) := by
  have h : ∀ c ∈ (l.map Char.toUpper).filter (fun c => !c.isWhitespace),
      Char.toUpper c = c := by
    intro c hc
    have hmem := List.mem_filter.mp hc
    rcases List.mem_map.mp hmem.1 with ⟨x, _, hx⟩
    rw [← hx, toUpper_toUpper]
  calc ((l.map Char.toUpper).filter (fun c => !c.isWhitespace)).map Char.toUpper
      = ((l.map Char.toUpper).filter (fun c => !c.isWhitespace)).map id :=
        List.map_congr_left h
    _ = _ := List.map_id _

theorem normalizeId_idem (s : String) :
    normalizeId (normalizeId s) = normalizeId s := by
  unfold normalizeId
  apply congrArg String.mk
  show (((String.mk ((s.data.map Char.toUpper).filter
      (fun c => !c.isWhitespace))).data.map Char.toUpper).filter
      (fun c => !c.isWhitespace)) = _
  rw [show (String.mk ((s.data.map Char.toUpper).filter
      (fun c => !c.isWhitespace))).data
      = (s.data.map Char.toUpper).filter (fun c => !c.isWhitespace) from rfl]
  rw [normList_map_toUpper]
  rw [List.filter_filter]
  apply List.filter_congr
  intro c _
  simp

/-- Claim C4 core: looking an identifier up and looking its normalized form
up give the same result, for every store. -/
theorem lookup_eq_lookup_normalize (store : List RegistryRecord) (s : String) :
    lookup_by_id store s = lookup_by_id store (normalizeId s) := by
  unfold lookup_by_id
  have h : matchesRecord (normalizeId s) = matchesRecord s := by
    funext r
    unfold matchesRecord
    rw [normalizeId_idem]
  rw [h]

/-! ### Identifier extraction (spec §4.2) -/

/-- Modelled from the spec: verifier.py is absent from src/; whitespace
tokenizer over the raw OCR text, accumulator-based. -/
def wordsAux : List Char → List Char → List String
  | [], acc => if acc.isEmpty then [] else [⟨acc.reverse⟩]
  | c :: cs, acc =>
    if c.isWhitespace then
      if acc.isEmpty then wordsAux cs []
      else ⟨acc.reverse⟩ :: wordsAux cs []
    else wordsAux cs (c :: acc)

/-- Modelled from the spec: split the raw OCR text into whitespace-separated
tokens; token index serves as the position for tie-breaking (§4.2). -/
def tokenize (s : String) : List String := wordsAux s.data []

/-- Modelled from the spec: strip non-alphanumeric punctuation (label colon,
trailing periods) from both ends of a token. -/
def cleanToken (t : String) : String :=
  ⟨((t.data.dropWhile (fun c => !c.isAlphanum)).reverse.dropWhile
      (fun c => !c.isAlphanum)).reverse⟩

/-- Canonical uppercase form of a cleaned token. -/
def upTok (t : String) : String := normalizeId (cleanToken t)

/-- Modelled from the spec §4.2 rule 1: the explicit identifier labels, as
uppercase word sequences, in matching order. -/
def idLabels : List (List String) :=
  [["REGISTRATION", "NUMBER"], ["REGISTRATION"], ["REG", "NO"],
   ["ROLL", "NO"], ["USN"], ["SERIAL", "NO"]]

/-- Length of the identifier label starting at token index i, if any. -/
def labelLenAt (up : List String) (i : Nat) : Option Nat :=
  idLabels.findSome? (fun lab =>
    if List.isPrefixOf lab (up.drop i) then some lab.length else none)

/-- Modelled from the spec §4.2 rule 1: a token acceptable as the identifier
following a label — alphanumeric, containing a digit, of plausible length. -/
def isIdToken (t : String) : Bool :=
  4 ≤ t.data.length && t.data.all Char.isAlphanum && t.data.any Char.isDigit

/-- Modelled from the spec §4.2 rule 2: institutional code shape — an
alphanumeric token starting with a letter and ending with a digit. -/
def isCodeShaped (t : String) : Bool :=
  6 ≤ t.data.length && t.data.all Char.isAlphanum &&
    (match t.data with | [] => false | c :: _ => c.isAlpha) &&
    (match t.data.reverse with | [] => false | c :: _ => c.isDigit)

/-- Modelled from the spec §4.2 rule 3: bare numeric token of plausible
length. -/
def isNumericId (t : String) : Bool :=
  6 ≤ t.data.length && t.data.length ≤ 12 && t.data.all Char.isDigit

/-- An extracted identifier candidate (spec §3): matched substring, its
normalized form, the rule kind that matched (1 labeled, 2 code-shaped,
3 numeric-only), and the token position for tie-breaking. -/
structure IdCandidate where
  raw : String
  normalized : String
  pattern_kind : Nat
  position : Nat
deriving DecidableEq, Repr

/-- Modelled from the spec §4.2 rule 1: candidates anchored to an explicit
label, in order of position. -/
def labeledCandidates (toks : List String) : List IdCandidate :=
  (List.range toks.length).filterMap (fun i =>
    match labelLenAt (toks.map upTok) i with
    | none => none
    | some k =>
      match (toks.drop (i + k)).head? with
      | none => none
      | some t =>
        let c := cleanToken t
        if isIdToken c then some ⟨t, normalizeId c, 1, i⟩ else none)

/-- Modelled from the spec §4.2 rules 2 and 3: unlabeled candidates of a
given shape, in order of position. -/
def shapeCandidates (kind : Nat) (p : String → Bool) (toks : List String) :
    List IdCandidate :=
  toks.enum.filterMap (fun pr =>
    let c := cleanToken pr.2
    if p c then some ⟨pr.2, normalizeId c, kind, pr.1⟩ else none)

/-- Modelled from the spec §4.2: deduplication worker carrying the set of
normalized forms already emitted. -/
def dedupAux : List IdCandidate → List String → List IdCandidate
  | [], _ => []
  | c :: rest, seen =>
    if seen.contains c.normalized then dedupAux rest seen
    else c :: dedupAux rest (c.normalized :: seen)

/-- Modelled from the spec §4.2: deduplicate by normalized form, keeping the
highest-priority, earliest occurrence. -/
def dedupByNormalized (l : List IdCandidate) : List IdCandidate :=
  dedupAux l []

/-- Modelled from the spec: verifier.py (the identifier-extraction half of
CertificateVerifier, tested as _extract_registration_numbers in
src/test_verifier.py) is absent from src/.  Spec §4.2: apply the ordered
pattern rules — label-anchored first, then institutional code shape, then
bare numeric —, order each tier by position, and deduplicate by normalized
form. -/
def extract_candidates (raw_text : String) : List IdCandidate :=
  let toks := tokenize raw_text
  dedupByNormalized
    (labeledCandidates toks ++
     shapeCandidates 2 isCodeShaped toks ++
     shapeCandidates 3 isNumericId toks)

/-- Modelled from the spec: verifier.py (CertificateVerifier._lookup_registration
callers) is absent from src/.  Spec §4.3: try the candidates in extraction
order, stop at the first registry hit; no hit resolves to none, a legitimate
outcome rather than an error. -/
def resolve (store : List RegistryRecord) :
    List IdCandidate → Option (String × RegistryRecord)
  | [] => none
  | c :: rest =>
    match lookup_by_id store c.normalized with
    | some r => some (c.normalized, r)
    | none => resolve store rest

/-! ### Field extraction (spec §4.4) -/

/-- Modelled from the spec §4.4: anchor and stop words ending a field run. -/
def stopWords : List String :=
  ["HAS", "FROM", "IN", "THE", "YEAR", "REGISTRATION", "REG", "ROLL", "USN",
   "SERIAL", "DATE", "NAME", "FATHER"]

/-- A token that does not end the current field run. -/
def notStop (t : String) : Bool := !(stopWords.contains (upTok t))

/-- Space-joined rendering of a token run. -/
def joinTokens (ts : List String) : String := String.intercalate " " ts

/-- Index just past the first certifying phrase, scanning left to right. -/
def findCertifyIdx : List String → Nat → Option Nat
  | a :: b :: rest, i =>
    if (a == "CERTIFY" || a == "CERTIFIES") && b == "THAT" then some (i + 2)
    else findCertifyIdx (b :: rest) (i + 1)
  | _, _ => none

/-- Index of the first token equal to a given word. -/
def findTokenIdxAux (w : String) : List String → Nat → Option Nat
  | [], _ => none
  | t :: rest, i => if t == w then some i else findTokenIdxAux w rest (i + 1)

/-- Index of the first occurrence of a word sequence. -/
def findSeqIdxAux (lab : List String) : List String → Nat → Option Nat
  | [], _ => none
  | t :: rest, i =>
    if List.isPrefixOf lab (t :: rest) then some i
    else findSeqIdxAux lab rest (i + 1)

/-- Line splitter used by the all-uppercase-line name fallback. -/
def splitOnCharAux (sep : Char) : List Char → List Char → List String
  | [], acc => [⟨acc.reverse⟩]
  | c :: cs, acc =>
    if c == sep then ⟨acc.reverse⟩ :: splitOnCharAux sep cs []
    else splitOnCharAux sep cs (c :: acc)

/-- Lines of the raw text. -/
def splitLines (s : String) : List String := splitOnCharAux '\n' s.data []

/-- A token consisting solely of uppercase letters. -/
def isUpperWord (t : String) : Bool :=
  !t.data.isEmpty && t.data.all (fun c => c.isUpper)

/-- Modelled from the spec §4.4 name fallback: an all-uppercase line of
plausible name length, two to four words. -/
def isNameLine (ln : String) : Bool :=
  let ws := ((tokenize ln).map cleanToken).filter (fun t => !t.data.isEmpty)
  2 ≤ ws.length && ws.length ≤ 4 && ws.all isUpperWord

/-- Modelled from the spec §4.4 name fallback path. -/
def fallbackName (raw : String) : Option String :=
  ((splitLines raw).find? isNameLine).map
    (fun ln => joinTokens (((tokenize ln).map cleanToken).filter
      (fun t => !t.data.isEmpty)))

/-- Modelled from the spec: verifier.py field extraction is absent from
src/.  Spec §4.4 name rule: text following a certifying phrase up to the
next anchor, else the first all-uppercase line of two to four words. -/
def extractName (raw : String) : Option String :=
  let toks := tokenize raw
  match findCertifyIdx (toks.map upTok) 0 with
  | some j =>
    let ws := (toks.drop j).takeWhile notStop
    if ws.isEmpty then fallbackName raw else some (joinTokens (ws.map cleanToken))
  | none => fallbackName raw

/-- Institution-shaped keywords (spec §4.4). -/
def instKeywords : List String := ["INSTITUTE", "UNIVERSITY", "COLLEGE", "ACADEMY"]

/-- Modelled from the spec §4.4: institution via a Name-of-the-College-style
label. -/
def instLabelPath (toks : List String) (up : List String) : Option String :=
  match findSeqIdxAux ["NAME", "OF", "THE", "COLLEGE"] up 0 with
  | some i =>
    let ws := (toks.drop (i + 4)).takeWhile notStop
    if ws.isEmpty then none else some (joinTokens (ws.map cleanToken))
  | none => none

/-- Modelled from the spec: verifier.py field extraction is absent from
src/.  Spec §4.4 institution rule: text following the word from when it is
an institution-shaped phrase, else a college-name label. -/
def extractInstitution (raw : String) : Option String :=
  let toks := tokenize raw
  let up := toks.map upTok
  match findTokenIdxAux "FROM" up 0 with
  | some i =>
    let ws := (toks.drop (i + 1)).takeWhile notStop
    if ws.any (fun t => instKeywords.contains (upTok t)) then
      some (joinTokens (ws.map cleanToken))
    else instLabelPath toks up
  | none => instLabelPath toks up

/-- Connective tokens skipped between the completion anchor and the degree
title. -/
def degreeSkip : List String := ["THE", "COURSE", "PROGRAM", "PROGRAMME"]

/-- Modelled from the spec: verifier.py field extraction is absent from
src/.  Spec §4.4 degree rule: text between the completion anchor and the
next from-institution anchor. -/
def extractDegree (raw : String) : Option String :=
  let toks := tokenize raw
  match findTokenIdxAux "COMPLETED" (toks.map upTok) 0 with
  | some i =>
    let after := (toks.drop (i + 1)).dropWhile (fun t => degreeSkip.contains (upTok t))
    let ws := after.takeWhile notStop
    if ws.isEmpty then none else some (joinTokens (ws.map cleanToken))
  | none => none

/-- Numeric value of a digit string. -/
def digitsToNat (l : List Char) : Nat :=
  l.foldl (fun a c => a * 10 + (c.toNat - 48)) 0

/-- A four-digit token in the plausible year range (spec §4.4; the upper
bound is a fixed policy constant so that scoring depends on no clock). -/
def isYearToken (t : String) : Option String :=
  let c := cleanToken t
  if c.data.length = 4 && c.data.all Char.isDigit then
    let n := digitsToNat c.data
    if 1950 ≤ n && n ≤ 2100 then some c else none
  else none

/-- Modelled from the spec: verifier.py field extraction is absent from
src/.  Spec §4.4 year rule: a plausible four-digit number near a year
label, else the first one anywhere in the text. -/
def extractYear (raw : String) : Option String :=
  let toks := tokenize raw
  match findTokenIdxAux "YEAR" (toks.map upTok) 0 with
  | some i =>
    match ((toks.drop (i + 1)).take 3).findSome? isYearToken with
    | some y => some y
    | none => toks.findSome? isYearToken
  | none => toks.findSome? isYearToken

/-- Extracted candidate fields (spec §3): each optional, raw text retained. -/
structure ExtractedFields where
  name : Option String
  institution : Option String
  degree : Option String
  year : Option String
  raw_text : String
deriving DecidableEq, Repr

/-- Modelled from the spec: verifier.py (field-extraction half of
CertificateVerifier) is absent from src/.  Spec §4.4: label-anchored
best-effort parse; any field may be absent. -/
def extract_fields (raw : String) : ExtractedFields :=
  ⟨extractName raw, extractInstitution raw, extractDegree raw, extractYear raw, raw⟩

/-! ### Field matching and scoring (spec §4.5) -/

/-- One row update of the Levenshtein distance table: given the previous
row (distances to the shorter second-string prefix) aligned with the
remaining first string, the cell left of the current one, and the current
second-string character, produce the rest of the new row. -/
def levRow (y : Char) : List Char → List Nat → Nat → List Nat
  | [], _, _ => []
  | x :: xs, p0 :: p1 :: ps, left =>
    let cell := min (left + 1) (min (p1 + 1) (p0 + if x == y then 0 else 1))
    cell :: levRow y xs (p1 :: ps) cell
  | _ :: _, _, _ => []

/-- Fold the row update over the second string. -/
def levFold (xs : List Char) : List Char → List Nat → List Nat
  | [], row => row
  | y :: ys, row =>
    let j0 := row.headD 0 + 1
    levFold xs ys (j0 :: levRow y xs row j0)

/-- Modelled from the spec §4.5: edit distance between two character lists,
computed row by row. -/
def lev (xs ys : List Char) : Nat :=
  (levFold xs ys (List.range (xs.length + 1))).getLastD 0

/-- Modelled from the spec: verifier.py similarity scoring is absent from
src/.  Spec §4.5: case-insensitive, whitespace-normalized edit-distance
ratio in the unit interval; two empty values count as an exact match. -/
def similarity (a b : String) : ℚ :=
  let x := (normalizeId a).data
  let y := (normalizeId b).data
  let m := max x.length y.length
  if m = 0 then 1 else 1 - (lev x y : ℚ) / (m : ℚ)

/-- Per-field similarities of one verification (spec §3 FieldScore). -/
structure FieldSims where
  name : ℚ
  institution : ℚ
  degree : ℚ
  year : ℚ
deriving DecidableEq, Repr

/-- Modelled from the spec §4.5: scoring weight of the holder name. -/
def W_NAME : ℚ := 35 / 100

/-- Modelled from the spec §4.5: scoring weight of the institution. -/
def W_INST : ℚ := 30 / 100

/-- Modelled from the spec §4.5: scoring weight of the degree title. -/
def W_DEGREE : ℚ := 20 / 100

/-- Modelled from the spec §4.5: scoring weight of the year. -/
def W_YEAR : ℚ := 15 / 100

/-- Modelled from the spec: verifier.py aggregate scoring is absent from
src/.  Spec §4.5: the final score is the weighted sum of the four field
similarities, name and institution weighted most heavily. -/
def finalScore (s : FieldSims) : ℚ :=
  W_NAME * s.name + W_INST * s.institution + W_DEGREE * s.degree + W_YEAR * s.year

/-- An absent extracted field scores zero (spec §4.5). -/
def simOpt : Option String → String → ℚ
  | none, _ => 0
  | some v, w => similarity v w

/-- Modelled from the spec §4.5 year rule: exact match scores one, within
one year scores one half, otherwise zero; an absent year scores zero. -/
def yearScore : Option String → Nat → ℚ
  | none, _ => 0
  | some s, ry =>
    let n := digitsToNat (cleanToken s).data
    if n = ry then 1 else if n + 1 = ry ∨ ry + 1 = n then 1 / 2 else 0

/-- Modelled from the spec: verifier.py per-field scoring is absent from
src/.  Spec §4.5: compare each extracted field with the looked-up record
field. -/
def score (f : ExtractedFields) (r : RegistryRecord) : FieldSims :=
  ⟨simOpt f.name r.name, simOpt f.institution r.institution,
   simOpt f.degree r.degree, yearScore f.year r.year⟩

/-! ### Decision engine (spec §4.6) -/

/-- The three-way decision (spec §3). -/
inductive Decision where
  | AUTHENTIC
  | SUSPECT
  | REJECTED
deriving DecidableEq, Repr

/-- Modelled from the spec §4.6: score floor for an authentic decision. -/
def AUTHENTIC_THRESHOLD : ℚ := 80 / 100

/-- Modelled from the spec §4.6: score floor for a suspect decision. -/
def SUSPECT_THRESHOLD : ℚ := 55 / 100

/-- Modelled from the spec §4.6: per-field minimum below which a field is
named in the reasons. -/
def FIELD_MINIMUM : ℚ := 60 / 100

/-- Modelled from the spec §4.6: reasons naming each field whose similarity
fell below the per-field minimum. -/
def lowFieldReasons (s : FieldSims) : List String :=
  (if s.name < FIELD_MINIMUM then ["low name similarity"] else []) ++
  (if s.institution < FIELD_MINIMUM then ["low institution similarity"] else []) ++
  (if s.degree < FIELD_MINIMUM then ["low degree similarity"] else []) ++
  (if s.year < FIELD_MINIMUM then ["low year similarity"] else [])

/-- Modelled from the spec: verifier.py decision logic is absent from
src/.  Spec §4.6 state machine: no identifier means REJECTED with its fixed
reason; otherwise the score is compared against the two thresholds. -/
def decideDecision (identifier_found : Bool) (fs : ℚ) (sims : FieldSims) :
    Decision × List String :=
  if !identifier_found then
    (Decision.REJECTED, ["no matching registry identifier found"])
  else if AUTHENTIC_THRESHOLD ≤ fs then
    (Decision.AUTHENTIC, "certificate fields match registry record" :: lowFieldReasons sims)
  else if SUSPECT_THRESHOLD ≤ fs then
    (Decision.SUSPECT, "partial field match requires manual review" :: lowFieldReasons sims)
  else
    (Decision.REJECTED, "field mismatch below acceptable threshold" :: lowFieldReasons sims)

/-- The OCR result contract consumed by the core (spec §6). -/
structure OCRResult where
  success : Bool
  extracted_text : String
  confidence : ℚ
deriving DecidableEq, Repr

/-- The verification result (spec §3). -/
structure VerificationResult where
  decision : Decision
  final_score : ℚ
  registration_no : Option String
  db_record : Option RegistryRecord
  extracted_fields : ExtractedFields
  field_scores : FieldSims
  reasons : List String
deriving DecidableEq, Repr

/-- Modelled from the spec: verifier.py (CertificateVerifier.verify_certificate)
is absent from src/.  Control flow per spec §2: candidates, resolution,
field extraction, scoring, decision.  Per §7, a failed or empty OCR
extraction is a soft failure treated as empty text, never an error: the
function is total and always returns a decision with reasons. -/
def verify (store : List RegistryRecord) (ocr : OCRResult) : VerificationResult :=
  let text := if ocr.success then ocr.extracted_text else ""
  let fields := extract_fields text
  match resolve store (extract_candidates text) with
  | none =>
    { decision := Decision.REJECTED, final_score := 0, registration_no := none,
      db_record := none, extracted_fields := fields,
      field_scores := ⟨0, 0, 0, 0⟩,
      reasons := ["no matching registry identifier found"] }
  | some (rid, rec) =>
    let sims := score fields rec
    let fs := finalScore sims
    let dr := decideDecision true fs sims
    { decision := dr.1, final_score := fs, registration_no := some rid,
      db_record := some rec, extracted_fields := fields, field_scores := sims,
      reasons := dr.2 }

/-! ### Seal composition (src/main.py) -/

/-- The seal classification result dictionary consumed by src/main.py
(keys per spec §6 and the dictionaries built in verify_certificate). -/
structure SealResult where
  status : String
  seal_status : String
  confidence : ℚ
  reason : String
deriving DecidableEq, Repr

/-- Embeds src/main.py line 184 (create_verification_report): the OCR step
passes exactly when the text decision is AUTHENTIC. -/
def ocrStatus (decision : String) : String :=
  if decision == "AUTHENTIC" then "Pass" else "Fail"

/-- Embeds src/main.py line 185: the seal status string, defaulting to Not
Checked when no seal result exists. -/
def reportSealStatus : Option SealResult → String
  | some s => s.status
  | none => "Not Checked"

/-- Embeds src/main.py lines 183-186 (create_verification_report): the
final decision is Real exactly when both the OCR step and the seal step
pass; the scores take no part in it. -/
def report_final_decision (decision : String) (seal_result : Option SealResult) :
    String :=
  if ocrStatus decision == "Pass" && reportSealStatus seal_result == "Pass" then
    "Real"
  else "Fake"

/-- The scenario record fed to apply_security_logic in
src/test_security_fix.py: a missing seal verification is a None status and
a None fake-seal count. -/
structure Scenario where
  ocr_status : String
  ocr_confidence : ℚ
  seal_status : Option String
  seal_confidence : ℚ
  fake_seals : Option Nat
deriving DecidableEq, Repr

/-- Embeds src/test_security_fix.py lines 82-107 (apply_security_logic):
reject when fake seals were detected with confidence above 0.7; otherwise,
with no seal verification, pass on OCR alone when its confidence exceeds
0.8; otherwise pass only when both steps passed. -/
def apply_security_logic (sc : Scenario) : String :=
  let both_pass := sc.ocr_status == "Pass" && sc.seal_status == some "Pass"
  let fake_seals_detected :=
    match sc.fake_seals with
    | some k => decide (0 < k) && decide ((7 : ℚ) / 10 < sc.seal_confidence)
    | none => false
  if fake_seals_detected then "Fake"
  else
    match sc.seal_status with
    | none =>
      if sc.ocr_status == "Pass" && decide ((8 : ℚ) / 10 < sc.ocr_confidence) then
        "Real"
      else "Fake"
    | some _ => if both_pass then "Real" else "Fake"

/-! ### Bulk import (src/csv_to_database.py) -/

/-- One row of the imported CSV, with the columns read by
process_and_insert_data. -/
structure CsvRow where
  serial_no : String
  father_name : String
  son_name : String
  assigned_date : String
deriving DecidableEq, Repr

/-- Leading and trailing whitespace removal, as the strip calls in
src/csv_to_database.py perform. -/
def pyStrip (s : String) : String :=
  ⟨((s.data.dropWhile Char.isWhitespace).reverse.dropWhile
      Char.isWhitespace).reverse⟩

/-- English month names accepted by the assigned-date parse. -/
def monthNames : List String :=
  ["January", "February", "March", "April", "May", "June", "July", "August",
   "September", "October", "November", "December"]

/-- Embeds the strptime call of src/csv_to_database.py lines 114-119
(format day, month name, four-digit year), abstracted to token shape: on
any parse failure the caller falls back to the graduation year. -/
def parseAssignedYear (s : String) : Option Nat :=
  match tokenize s with
  | [d, m, y] =>
    if !d.data.isEmpty && d.data.all Char.isDigit && monthNames.contains m &&
        y.data.length = 4 && y.data.all Char.isDigit then
      some (digitsToNat y.data)
    else none
  | _ => none

/-- Embeds src/csv_to_database.py lines 94-137 (process_and_insert_data,
one row): the stripped serial number is written into both the reg_no and
the usn column; institution, degree and certificate type are fixed; the
year comes from the assigned date, falling back to the graduation year. -/
def process_row (row : CsvRow) : RegistryRecord :=
  let usn := pyStrip row.serial_no
  let graduation_year := 2023
  let batch_year := if usn.startsWith "1BG19CS" then 2019 else 2019
  let cert_year := (parseAssignedYear (pyStrip row.assigned_date)).getD graduation_year
  { reg_no := usn
    usn := usn
    name := pyStrip row.son_name
    father_name := pyStrip row.father_name
    institution := "B.N.M. INSTITUTE OF TECHNOLOGY, BANGALORE"
    degree := "B.E. Computer Science & Engineering"
    year := cert_year
    assigned_date := pyStrip row.assigned_date
    certificate_type := "Degree Certificate"
    notes := "Imported from CSV - Batch " ++ toString batch_year }

/-- Modelled from the spec (together with src/csv_to_database.py):
init_db.py, which creates the certificates table, is absent from src/;
spec §3 states that the primary identifier is the unique key and that
imports upsert by it, replacing on conflict.  This is the effect of the
INSERT OR REPLACE statement of process_and_insert_data on a store keyed by
reg_no. -/
def upsert (store : List RegistryRecord) (r : RegistryRecord) :
    List RegistryRecord :=
  if store.any (fun x => x.reg_no == r.reg_no) then
    store.map (fun x => if x.reg_no == r.reg_no then r else x)
  else store ++ [r]

/-- Embeds the import loop of src/csv_to_database.py
(process_and_insert_data): every row is processed and upserted in order. -/
def import_rows (store : List RegistryRecord) (rows : List CsvRow) :
    List RegistryRecord :=
  rows.foldl (fun s row => upsert s (process_row row)) store

/-! ### Sample data for concrete instantiations -/

/-- The sample registry record of the repository's demo certificate
(Saksham Sharma, ABC2023001, per src/main.py demo mode and
src/test_sample.py). -/
def sampleRecord : RegistryRecord :=
  ⟨"ABC2023001", "ABC2023001", "Saksham Sharma", "", "DevLabs Institute",
   "B.Tech Computer Engineering", 2023, "", "Degree Certificate", ""⟩

/-- The demo-mode OCR text of src/main.py for the sample certificate. -/
def demoText : String :=
  "CERTIFICATE OF COMPLETION\nThis is to certify that\nSAKSHAM SHARMA\nhas successfully completed the course\nB.Tech Computer Engineering\nfrom\nDevLabs Institute\nin the year 2023\nRegistration Number: ABC2023001\nDate of Issue: December 2023"

/-! ### Claim theorems -/

/-- C1: seal-composition policy of src/main.py lines 183-186 — whenever a
seal-classification result is available, the overall decision is Real
exactly when the text decision is AUTHENTIC and the seal status is Pass
(a pure conjunction of the two verdicts, with no averaging and no
disjunction, and independent of any score); in particular an AUTHENTIC
text decision combined with a Fail/Fake seal classification at confidence
0.85 yields Fake. -/
theorem seal_composition_conjunctive (d : String) (s : SealResult) :
    (report_final_decision d (some s) = "Real" ↔
      (d = "AUTHENTIC" ∧ s.status = "Pass")) ∧
    report_final_decision "AUTHENTIC"
      (some ⟨"Fail", "Fake", 85 / 100, "Fake seals detected"⟩) = "Fake" := by
  constructor
  · unfold report_final_decision ocrStatus reportSealStatus
    by_cases hd : d = "AUTHENTIC" <;> by_cases hs : s.status = "Pass" <;>
      simp [hd, hs]
  · rfl

/-- C2: for every input text from which no identifier candidate resolves
against the registry (including text where extraction yields no candidate
at all), the decision is REJECTED with reason "no matching registry
identifier found", hence never AUTHENTIC or SUSPECT. -/
theorem no_resolution_rejected (store : List RegistryRecord) (text : String)
    (conf : ℚ) (h : resolve store (extract_candidates text) = none) :
    (verify store ⟨true, text, conf⟩).decision = Decision.REJECTED ∧
    (verify store ⟨true, text, conf⟩).reasons =
      ["no matching registry identifier found"] := by
  constructor <;> simp [verify, h]

/-- Witness for C2 at a concrete text with no identifier pattern: the
candidate list is empty, nothing resolves, and the decision is REJECTED
with the fixed reason. -/
theorem no_resolution_rejected_witness :
    extract_candidates "certificate without any number" = [] ∧
    (verify [sampleRecord] ⟨true, "certificate without any number", 9 / 10⟩).decision
      = Decision.REJECTED ∧
    (verify [sampleRecord] ⟨true, "certificate without any number", 9 / 10⟩).reasons
      = ["no matching registry identifier found"] :=
  ⟨by decide,
   (no_resolution_rejected [sampleRecord] "certificate without any number"
      (9 / 10) (by decide)).1,
   (no_resolution_rejected [sampleRecord] "certificate without any number"
      (9 / 10) (by decide)).2⟩

/-- C3: an OCR result whose text is empty or whose success flag is false is
a soft failure: verify (a total function — no exception can escape it)
still yields a decision, deterministically REJECTED, with an ordered
human-readable reason list. -/
theorem empty_ocr_soft_failure (store : List RegistryRecord) (ocr : OCRResult)
    (h : ocr.success = false ∨ ocr.extracted_text = "") :
    (verify store ocr).decision = Decision.REJECTED ∧
    (verify store ocr).reasons = ["no matching registry identifier found"] := by
  obtain ⟨succ, text, conf⟩ := ocr
  cases succ
  · exact ⟨rfl, rfl⟩
  · rcases h with h | h
    · simp at h
    · have htext : text = "" := h
      subst htext
      exact ⟨rfl, rfl⟩

/-- Witness for C3 at a concrete failed OCR result. -/
theorem empty_ocr_soft_failure_witness :
    (verify [sampleRecord] ⟨false, "unreadable scan", 0⟩).decision
      = Decision.REJECTED ∧
    (verify [sampleRecord] ⟨false, "unreadable scan", 0⟩).reasons
      = ["no matching registry identifier found"] :=
  empty_ocr_soft_failure [sampleRecord] ⟨false, "unreadable scan", 0⟩ (Or.inl rfl)

/-- C4: registry lookup is invariant under case and internal whitespace of
the queried identifier — looking up s equals looking up its uppercase,
whitespace-stripped form — and the spellings ABC 2023 001 and abc2023001
resolve exactly like the canonical ABC2023001, for every store. -/
theorem registry_lookup_normalization (store : List RegistryRecord) (s : String) :
    lookup_by_id store s = lookup_by_id store (normalizeId s) ∧
    lookup_by_id store "ABC 2023 001" = lookup_by_id store "ABC2023001" ∧
    lookup_by_id store "abc2023001" = lookup_by_id store "ABC2023001" := by
  refine ⟨lookup_eq_lookup_normalize store s, ?_, ?_⟩
  · have h := lookup_eq_lookup_normalize store "ABC 2023 001"
    rwa [show normalizeId "ABC 2023 001" = "ABC2023001" from by decide] at h
  · have h := lookup_eq_lookup_normalize store "abc2023001"
    rwa [show normalizeId "abc2023001" = "ABC2023001" from by decide] at h

/-- C5: the CSV import writes the stripped serial number into both the
legacy registration-number column and the roll/serial/USN column of the
imported record, and a candidate identifier whose normalized form equals
either column is declared a lookup hit on that one record. -/
theorem dual_column_import (row : CsvRow) :
    (process_row row).reg_no = (process_row row).usn ∧
    (∀ idv : String,
      normalizeId idv = normalizeId (process_row row).reg_no →
      matchesRecord idv (process_row row) = true) ∧
    (∀ idv : String,
      normalizeId idv = normalizeId (process_row row).usn →
      matchesRecord idv (process_row row) = true) := by
  refine ⟨rfl, ?_, ?_⟩ <;> intro idv h <;> unfold matchesRecord <;> simp [h]

/-- Witness for C5: a lowercase candidate hits the record imported from the
uppercase USN 1BG19CS100 via either column. -/
theorem dual_column_import_witness :
    matchesRecord "1bg19cs100"
      (process_row ⟨" 1BG19CS100 ", "ASHOK VERMA", "VIKRAM VERMA",
        "1 August 2020"⟩) = true :=
  (dual_column_import ⟨" 1BG19CS100 ", "ASHOK VERMA", "VIKRAM VERMA",
    "1 August 2020"⟩).2.1 "1bg19cs100" (by decide)

/-- C6: verification is deterministic — the pipeline is a pure function of
the input and the store, with no clock or randomness anywhere in scoring,
so two runs on equal inputs give bit-identical results in every component. -/
theorem verify_deterministic (store : List RegistryRecord)
    (ocr1 ocr2 : OCRResult) (h : ocr1 = ocr2) :
    verify store ocr1 = verify store ocr2 := by
  rw [h]

/-- Witness for C6 at the demo certificate. -/
theorem verify_deterministic_witness :
    verify [sampleRecord] ⟨true, demoText, 92 / 100⟩ =
      verify [sampleRecord] ⟨true, demoText, 92 / 100⟩ :=
  verify_deterministic [sampleRecord] _ _ rfl

/-- C7: the aggregate final score is monotone in each field similarity —
raising any similarity while not lowering the others never decreases the
score — and it is the weighted sum of the four similarities with
nonnegative weights summing to one. -/
theorem finalScore_monotone_weighted :
    (∀ a b : FieldSims, a.name ≤ b.name → a.institution ≤ b.institution →
      a.degree ≤ b.degree → a.year ≤ b.year → finalScore a ≤ finalScore b) ∧
    W_NAME + W_INST + W_DEGREE + W_YEAR = 1 ∧
    0 ≤ W_NAME ∧ 0 ≤ W_INST ∧ 0 ≤ W_DEGREE ∧ 0 ≤ W_YEAR := by
  refine ⟨?_, by norm_num [W_NAME, W_INST, W_DEGREE, W_YEAR],
    by norm_num [W_NAME], by norm_num [W_INST],
    by norm_num [W_DEGREE], by norm_num [W_YEAR]⟩
  intro a b h1 h2 h3 h4
  unfold finalScore W_NAME W_INST W_DEGREE W_YEAR
  have m1 := mul_le_mul_of_nonneg_left h1 (by norm_num : (0 : ℚ) ≤ 35 / 100)
  have m2 := mul_le_mul_of_nonneg_left h2 (by norm_num : (0 : ℚ) ≤ 30 / 100)
  have m3 := mul_le_mul_of_nonneg_left h3 (by norm_num : (0 : ℚ) ≤ 20 / 100)
  have m4 := mul_le_mul_of_nonneg_left h4 (by norm_num : (0 : ℚ) ≤ 15 / 100)
  linarith

/-- Witness for C7: raising only the name similarity does not decrease the
score. -/
theorem finalScore_monotone_weighted_witness :
    finalScore ⟨0, 1 / 2, 1, 0⟩ ≤ finalScore ⟨1, 1 / 2, 1, 0⟩ :=
  finalScore_monotone_weighted.1 ⟨0, 1 / 2, 1, 0⟩ ⟨1, 1 / 2, 1, 0⟩
    (by norm_num) (le_refl _) (le_refl _) (le_refl _)

/-- C8: whenever an identifier was resolved (the decision engine runs with
identifier_found set), four field similarities of exactly one force the
decision AUTHENTIC, and four field similarities of zero force REJECTED —
the decision the verify pipeline uses in its resolved branch. -/
theorem threshold_boundaries (found : Bool) (sims : FieldSims)
    (hfound : found = true) :
    (sims = ⟨1, 1, 1, 1⟩ →
      (decideDecision found (finalScore sims) sims).1 = Decision.AUTHENTIC) ∧
    (sims = ⟨0, 0, 0, 0⟩ →
      (decideDecision found (finalScore sims) sims).1 = Decision.REJECTED) := by
  subst hfound
  constructor <;> intro hs <;> subst hs <;>
    norm_num [decideDecision, finalScore, AUTHENTIC_THRESHOLD,
      SUSPECT_THRESHOLD, W_NAME, W_INST, W_DEGREE, W_YEAR]

/-- Witness for C8 at the two boundary similarity vectors. -/
theorem threshold_boundaries_witness :
    (decideDecision true (finalScore ⟨1, 1, 1, 1⟩) ⟨1, 1, 1, 1⟩).1
      = Decision.AUTHENTIC ∧
    (decideDecision true (finalScore ⟨0, 0, 0, 0⟩) ⟨0, 0, 0, 0⟩).1
      = Decision.REJECTED :=
  ⟨(threshold_boundaries true ⟨1, 1, 1, 1⟩ rfl).1 rfl,
   (threshold_boundaries true ⟨0, 0, 0, 0⟩ rfl).2 rfl⟩

theorem upsert_map_reg_no_nodup (store : List RegistryRecord)
    (r : RegistryRecord)
    (h : (store.map RegistryRecord.reg_no).Nodup) :
    ((upsert store r).map RegistryRecord.reg_no).Nodup := by
  unfold upsert
  by_cases hc : store.any (fun x => x.reg_no == r.reg_no) = true
  · rw [if_pos hc]
    have hmap : (store.map (fun x => if x.reg_no == r.reg_no then r else x)).map
        RegistryRecord.reg_no = store.map RegistryRecord.reg_no := by
      rw [List.map_map]
      apply List.map_congr_left
      intro x _
      by_cases hx : x.reg_no = r.reg_no
      · simp [hx]
      · simp [hx]
    rw [hmap]
    exact h
  · rw [if_neg hc]
    rw [List.map_append, List.nodup_append]
    refine ⟨h, List.nodup_singleton _, ?_⟩
    intro a ha hb
    simp only [List.map_cons, List.map_nil, List.mem_singleton] at hb
    subst hb
    rcases List.mem_map.mp ha with ⟨x, hx, hxr⟩
    exact hc (List.any_eq_true.mpr ⟨x, hx, by simp [hxr]⟩)

theorem mem_upsert_of_reg_no_ne (store : List RegistryRecord)
    (r x : RegistryRecord) (hx : x ∈ store) (hne : x.reg_no ≠ r.reg_no) :
    x ∈ upsert store r := by
  unfold upsert
  by_cases hc : store.any (fun y => y.reg_no == r.reg_no) = true
  · rw [if_pos hc]
    exact List.mem_map.mpr ⟨x, hx, by simp [hne]⟩
  · rw [if_neg hc]
    exact List.mem_append_left _ hx

theorem import_rows_nodup (rows : List CsvRow) :
    ∀ store : List RegistryRecord,
      (store.map RegistryRecord.reg_no).Nodup →
      ((import_rows store rows).map RegistryRecord.reg_no).Nodup := by
  induction rows with
  | nil => intro store h; exact h
  | cons row rest ih =>
    intro store h
    exact ih _ (upsert_map_reg_no_nodup store (process_row row) h)

theorem mem_import_rows (rows : List CsvRow) :
    ∀ (store : List RegistryRecord) (r : RegistryRecord), r ∈ store →
      r.reg_no ∉ rows.map (fun row => (process_row row).reg_no) →
      r ∈ import_rows store rows := by
  induction rows with
  | nil => intro store r hr _; exact hr
  | cons row rest ih =>
    intro store r hr hnot
    simp only [List.map_cons, List.mem_cons, not_or] at hnot
    exact ih _ r (mem_upsert_of_reg_no_ne store (process_row row) r hr hnot.1)
      (by simpa using hnot.2)

theorem upsert_length_of_conflict (store : List RegistryRecord)
    (r : RegistryRecord) (h : ∃ x ∈ store, x.reg_no = r.reg_no) :
    (upsert store r).length = store.length := by
  obtain ⟨x, hx, hxr⟩ := h
  have hc : store.any (fun y => y.reg_no == r.reg_no) = true :=
    List.any_eq_true.mpr ⟨x, hx, by simp [hxr]⟩
  unfold upsert
  rw [if_pos hc, List.length_map]

/-- C9: bulk import upserts by the primary identifier — importing a row
whose identifier is already present replaces the record in place and adds
nothing, identifiers stay unique across any sequence of imports, and a
record whose identifier is not among the imported rows is never deleted. -/
theorem import_upsert_invariants (store : List RegistryRecord)
    (rows : List CsvRow)
    (h : (store.map RegistryRecord.reg_no).Nodup) :
    ((import_rows store rows).map RegistryRecord.reg_no).Nodup ∧
    (∀ r ∈ store, r.reg_no ∉ rows.map (fun row => (process_row row).reg_no) →
      r ∈ import_rows store rows) ∧
    (∀ r : RegistryRecord, (∃ x ∈ store, x.reg_no = r.reg_no) →
      (upsert store r).length = store.length) :=
  ⟨import_rows_nodup rows store h,
   fun r hr hnot => mem_import_rows rows store r hr hnot,
   fun r hex => upsert_length_of_conflict store r hex⟩

/-- Witness for C9: importing the sample row over a singleton store keeps
the identifier column duplicate-free, and re-upserting a record with the
identifier already present does not grow the store. -/
theorem import_upsert_invariants_witness :
    ((import_rows [sampleRecord]
        [⟨"1BG19CS100", "ASHOK VERMA", "VIKRAM VERMA", "1 August 2020"⟩]).map
          RegistryRecord.reg_no).Nodup ∧
    (upsert [sampleRecord] sampleRecord).length = [sampleRecord].length :=
  ⟨(import_upsert_invariants [sampleRecord]
      [⟨"1BG19CS100", "ASHOK VERMA", "VIKRAM VERMA", "1 August 2020"⟩]
      (by decide)).1,
   (import_upsert_invariants [sampleRecord] [] (by decide)).2.2 sampleRecord
     ⟨sampleRecord, List.mem_singleton_self _, rfl⟩⟩

/-- C10 counterexample: the two final-decision implementations disagree at
explicit inputs.  With no seal verification and passing OCR at confidence
0.9, src/main.py yields Fake while apply_security_logic yields Real; with
a passing seal status but two fake seals at confidence 0.9,
apply_security_logic yields Fake while src/main.py yields Real. -/
theorem final_decision_implementations_differ :
    report_final_decision "AUTHENTIC" none = "Fake" ∧
    apply_security_logic ⟨"Pass", 9 / 10, none, 0, none⟩ = "Real" ∧
    report_final_decision "AUTHENTIC"
      (some ⟨"Pass", "Fake", 9 / 10, "fake seals found"⟩) = "Real" ∧
    apply_security_logic ⟨"Pass", 9 / 10, some "Pass", 9 / 10, some 2⟩ = "Fake" := by
  refine ⟨rfl, ?_, rfl, ?_⟩
  · norm_num [apply_security_logic]
  · norm_num [apply_security_logic]

/-- C10 amended: the two final-decision implementations agree on every
input on which a seal verification result is present and a positive
fake-seal count at confidence above 0.7 only occurs with a non-Pass seal
status; with no seal result they genuinely differ. -/
theorem final_decision_equiv_on_seal_present (d : String) (s : SealResult)
    (oc : ℚ) (fake : Option Nat)
    (hcons : ∀ k, fake = some k → 0 < k → (7 : ℚ) / 10 < s.confidence →
      s.status ≠ "Pass") :
    apply_security_logic ⟨ocrStatus d, oc, some s.status, s.confidence, fake⟩ =
      report_final_decision d (some s) := by
  unfold apply_security_logic report_final_decision reportSealStatus ocrStatus
  rcases fake with _ | k
  · by_cases hd : d = "AUTHENTIC" <;> by_cases hs : s.status = "Pass" <;>
      simp [hd, hs]
  · by_cases hk : 0 < k
    · by_cases hc : (7 : ℚ) / 10 < s.confidence
      · have hs : s.status ≠ "Pass" := hcons k rfl hk hc
        by_cases hd : d = "AUTHENTIC" <;> simp [hd, hs, hk, hc]
      · by_cases hd : d = "AUTHENTIC" <;> by_cases hs : s.status = "Pass" <;>
          simp [hd, hs, hk, hc]
    · by_cases hd : d = "AUTHENTIC" <;> by_cases hs : s.status = "Pass" <;>
        simp [hd, hs, hk]

/-- Witness for the amended C10 at a concrete agreeing input: passing text
decision and passing seal result, no fake-seal count. -/
theorem final_decision_equiv_on_seal_present_witness :
    apply_security_logic
        ⟨ocrStatus "AUTHENTIC", 9 / 10, some "Pass", 9 / 10, none⟩ =
      report_final_decision "AUTHENTIC"
        (some ⟨"Pass", "Real", 9 / 10, "All seals verified"⟩) :=
  final_decision_equiv_on_seal_present "AUTHENTIC"
    ⟨"Pass", "Real", 9 / 10, "All seals verified"⟩ (9 / 10) none
    (fun _ hk => absurd hk (by simp))

end Sitaram
